import Mathlib

/-!
Shallow embedding of `src/etl/transform.py` (ETL transformation module of the
database-migration repository): ID mapping, timestamp conversion, and the
entity transformers (organization, user, label, task, project), together with
theorems settling the frozen claims about them.

Python conventions are modelled as follows: a `dict[key]` access that can raise
`KeyError` becomes a `require` on an `Option` field; `dict.get(key, default)`
becomes `Option.getD`; exceptions are `Except PyErr`; MongoDB documents are
association lists `List (String × Value)` in insertion order; `bson.ObjectId()`
generation is modelled by a per-run fresh counter carried in the `IDMapper`
state (one new ObjectId per allocation, never repeated within a run, matching
the per-process uniqueness of BSON object ids).
-/

/-- Python exceptions relevant to the transform module. -/
inductive PyErr where
  | keyError (key : String)
  | typeError
  | attributeError
  deriving DecidableEq, Repr

/-- `rec['k']` on a Python dict: `KeyError` when the key is missing. -/
def require {α : Type} (k : String) : Option α → Except PyErr α
  | some v => .ok v
  | none => .error (.keyError k)

/-- Python `datetime`: a naive value has `tzmin = none`; an aware value
carries its UTC offset in minutes. -/
structure DateTime where
  year : Nat
  month : Nat
  day : Nat
  hour : Nat
  minute : Nat
  second : Nat
  usec : Nat
  tzmin : Option Int
  deriving DecidableEq, Repr

/-- `datetime.min`: midnight of year 1, offset-naive. -/
def datetimeMin : DateTime := ⟨1, 1, 1, 0, 0, 0, 0, none⟩

def digitVal (c : Char) : Nat := c.toNat - 48

/-- Read exactly `n` decimal digits, accumulating their value. -/
def readDigits (acc : Nat) : Nat → List Char → Option (Nat × List Char)
  | 0, cs => some (acc, cs)
  | _ + 1, [] => none
  | n + 1, c :: cs =>
      if c.isDigit then readDigits (acc * 10 + digitVal c) n cs else none

def expectChar (c : Char) : List Char → Option (List Char)
  | [] => none
  | x :: xs => if x = c then some xs else none

def isLeapYear (y : Nat) : Bool := y % 4 = 0 && (y % 100 ≠ 0 || y % 400 = 0)

def daysInMonth (y m : Nat) : Nat :=
  if m = 2 then (if isLeapYear y then 29 else 28)
  else if m = 4 || m = 6 || m = 9 || m = 11 then 30
  else 31

/-- Parse `YYYY-MM-DD` with calendar validation. -/
def parseDate (cs : List Char) : Option (Nat × Nat × Nat × List Char) := do
  let (y, cs) ← readDigits 0 4 cs
  let cs ← expectChar '-' cs
  let (mo, cs) ← readDigits 0 2 cs
  let cs ← expectChar '-' cs
  let (d, cs) ← readDigits 0 2 cs
  guard (1 ≤ y && 1 ≤ mo && mo ≤ 12 && 1 ≤ d && d ≤ daysInMonth y mo)
  some (y, mo, d, cs)

/-- Fractional-second digits to microseconds: first six digits, right-padded. -/
def fracToUsec (ds : List Char) : Nat :=
  let d6 := ds.take 6
  (d6.foldl (fun a c => a * 10 + digitVal c) 0) * 10 ^ (6 - d6.length)

/-- Parse `HH[:MM[:SS[.ffff…]]]` with range validation. -/
def parseTime (cs : List Char) : Option (Nat × Nat × Nat × Nat × List Char) := do
  let (h, cs) ← readDigits 0 2 cs
  guard (h ≤ 23)
  match cs with
  | ':' :: cs => do
      let (mi, cs) ← readDigits 0 2 cs
      guard (mi ≤ 59)
      match cs with
      | ':' :: cs => do
          let (s, cs) ← readDigits 0 2 cs
          guard (s ≤ 59)
          match cs with
          | '.' :: cs => do
              let frac := cs.takeWhile Char.isDigit
              guard (¬ frac.isEmpty)
              some (h, mi, s, fracToUsec frac, cs.dropWhile Char.isDigit)
          | cs => some (h, mi, s, 0, cs)
      | cs => some (h, mi, 0, 0, cs)
  | cs => some (h, 0, 0, 0, cs)

/-- Parse an optional UTC offset `±HH:MM` (absent means a naive datetime). -/
def parseOffset (cs : List Char) : Option (Option Int × List Char) :=
  match cs with
  | [] => some (none, [])
  | '+' :: cs => parseOffsetBody 1 cs
  | '-' :: cs => parseOffsetBody (-1) cs
  | _ => none
where
  parseOffsetBody (sign : Int) (cs : List Char) : Option (Option Int × List Char) := do
    let (oh, cs) ← readDigits 0 2 cs
    let cs ← expectChar ':' cs
    let (om, cs) ← readDigits 0 2 cs
    guard (om ≤ 59 && oh * 60 + om < 1440)
    some (some (sign * (oh * 60 + om : Nat)), cs)

/-- Model of `datetime.fromisoformat`, restricted to the common extended
ISO-8601 grammar `YYYY-MM-DD[<sep>HH[:MM[:SS[.ffff…]]][±HH:MM]]` (any single
separator character, as in CPython 3.11+). Parse failure — Python's
`ValueError`, caught by `convert_timestamp` — is `none`. -/
def fromisoformat (s : String) : Option DateTime := do
  let (y, mo, d, cs) ← parseDate s.toList
  match cs with
  | [] => some ⟨y, mo, d, 0, 0, 0, 0, none⟩
  | _sep :: cs => do
      let (h, mi, sec, us, cs) ← parseTime cs
      let (tz, cs) ← parseOffset cs
      guard cs.isEmpty
      some ⟨y, mo, d, h, mi, sec, us, tz⟩

/-- Python `s.replace('Z', '+00:00')` (single-character pattern). -/
def replaceZ (s : String) : String :=
  String.mk (s.toList.flatMap fun c => if c = 'Z' then ['+', '0', '0', ':', '0', '0'] else [c])

/-- Embedding of `convert_timestamp` (transform.py:108): `None` maps to `None`;
otherwise parse the ISO string after replacing `'Z'` with `'+00:00'`, and
degrade to `None` (with a logged warning) when parsing fails. -/
def convert_timestamp (timestamp_str : Option String) : Option DateTime :=
  match timestamp_str with
  | none => none
  | some s => fromisoformat (replaceZ s)

/-- Days in years before year `y` (proleptic Gregorian). -/
def daysBeforeYear (y : Nat) : Nat :=
  365 * (y - 1) + (y - 1) / 4 - (y - 1) / 100 + (y - 1) / 400

/-- Days in the months of year `y` before month `m`. -/
def daysBeforeMonth (y m : Nat) : Nat :=
  (List.range (m - 1)).foldl (fun a i => a + daysInMonth y (i + 1)) 0

def toOrdinalDay (y m d : Nat) : Nat := daysBeforeYear y + daysBeforeMonth y m + (d - 1)

/-- Encoding of a naive datetime that is strictly monotone for the
field-lexicographic order Python uses on naive datetimes (fields are within
calendar ranges for every parsed value). -/
def naiveKey (dt : DateTime) : Nat :=
  ((((dt.year * 13 + dt.month) * 32 + dt.day) * 24 + dt.hour) * 60 + dt.minute) * 60000000
    + dt.second * 1000000 + dt.usec

/-- Absolute microseconds of an aware datetime (UTC instant): Python compares
aware datetimes by instant. -/
def awareUsec (dt : DateTime) (off : Int) : Int :=
  ((((toOrdinalDay dt.year dt.month dt.day * 24 + dt.hour : Int) * 60 + dt.minute - off) * 60
      + dt.second) * 1000000) + dt.usec

/-- Python comparison of two datetimes: naive/naive compare field-wise,
aware/aware compare by UTC instant, and mixing naive with aware raises
`TypeError`. -/
def pyCompare (a b : DateTime) : Except PyErr Ordering :=
  match a.tzmin, b.tzmin with
  | none, none => .ok (compare (naiveKey a) (naiveKey b))
  | some x, some y => .ok (compare (awareUsec a x) (awareUsec b y))
  | _, _ => .error .typeError

/-- Python `a < b` on datetimes. -/
def pyLT (a b : DateTime) : Except PyErr Bool :=
  match pyCompare a b with
  | .ok .lt => .ok true
  | .ok _ => .ok false
  | .error e => .error e

/-- BSON-ish values stored in the produced MongoDB documents. -/
inductive Value where
  | null
  | int (n : Int)
  | str (s : String)
  | oid (o : Nat)
  | dt (d : DateTime)
  | arr (xs : List Value)
  | doc (kvs : List (String × Value))

/-- A MongoDB document: a Python dict in insertion order. -/
abbrev Doc := List (String × Value)

/-- Python truthiness of a value ( `if org.get('settings'):` ). -/
def pyTruthy : Value → Bool
  | .null => false
  | .int n => n ≠ 0
  | .str s => s ≠ ""
  | .oid _ => true
  | .dt _ => true
  | .arr xs => ¬ xs.isEmpty
  | .doc kvs => ¬ kvs.isEmpty

/-- An optional datetime as stored in a document (`None` becomes BSON null). -/
def optDT : Option DateTime → Value
  | none => .null
  | some d => .dt d

/-- An optional string as stored in a document. -/
def optStr : Option String → Value
  | none => .null
  | some s => .str s

/-- Embedding of the `IDMapper` class (transform.py:36): one mapping table per
entity type from postgres integer id to ObjectId, plus the fresh-ObjectId
supply (`next`) modelling `bson.ObjectId()`'s within-run uniqueness. -/
structure IDMapper where
  org_ids : List (Int × Nat)
  user_ids : List (Int × Nat)
  label_ids : List (Int × Nat)
  project_ids : List (Int × Nat)
  task_ids : List (Int × Nat)
  comment_ids : List (Int × Nat)
  next : Nat
  deriving DecidableEq, Repr

/-- `IDMapper.__init__`: empty mappings. -/
def IDMapper.init : IDMapper := ⟨[], [], [], [], [], [], 0⟩

/-- `generate_org_id` (transform.py:56): return the recorded ObjectId for
`pg_id`, allocating a fresh one first if the pair is new. -/
def IDMapper.generate_org_id (m : IDMapper) (pg : Int) : Nat × IDMapper :=
  match m.org_ids.lookup pg with
  | some oid => (oid, m)
  | none => (m.next, { m with org_ids := (pg, m.next) :: m.org_ids, next := m.next + 1 })

/-- `generate_user_id` (transform.py:62). -/
def IDMapper.generate_user_id (m : IDMapper) (pg : Int) : Nat × IDMapper :=
  match m.user_ids.lookup pg with
  | some oid => (oid, m)
  | none => (m.next, { m with user_ids := (pg, m.next) :: m.user_ids, next := m.next + 1 })

/-- `generate_label_id` (transform.py:68). -/
def IDMapper.generate_label_id (m : IDMapper) (pg : Int) : Nat × IDMapper :=
  match m.label_ids.lookup pg with
  | some oid => (oid, m)
  | none => (m.next, { m with label_ids := (pg, m.next) :: m.label_ids, next := m.next + 1 })

/-- `generate_project_id` (transform.py:74). -/
def IDMapper.generate_project_id (m : IDMapper) (pg : Int) : Nat × IDMapper :=
  match m.project_ids.lookup pg with
  | some oid => (oid, m)
  | none => (m.next, { m with project_ids := (pg, m.next) :: m.project_ids, next := m.next + 1 })

/-- `generate_task_id` (transform.py:80). -/
def IDMapper.generate_task_id (m : IDMapper) (pg : Int) : Nat × IDMapper :=
  match m.task_ids.lookup pg with
  | some oid => (oid, m)
  | none => (m.next, { m with task_ids := (pg, m.next) :: m.task_ids, next := m.next + 1 })

/-- `generate_comment_id` (transform.py:86). -/
def IDMapper.generate_comment_id (m : IDMapper) (pg : Int) : Nat × IDMapper :=
  match m.comment_ids.lookup pg with
  | some oid => (oid, m)
  | none => (m.next, { m with comment_ids := (pg, m.next) :: m.comment_ids, next := m.next + 1 })

/-- The six entity types that have mapping tables. -/
inductive EType where
  | org | user | label | project | task | comment
  deriving DecidableEq, Repr

/-- The mapping table of one entity type. -/
def IDMapper.tableOf (m : IDMapper) : EType → List (Int × Nat)
  | .org => m.org_ids
  | .user => m.user_ids
  | .label => m.label_ids
  | .project => m.project_ids
  | .task => m.task_ids
  | .comment => m.comment_ids

/-- Nested `organizations(id, name)` join payload. -/
structure OrgPayload where
  id : Option Int
  name : Option String
  deriving DecidableEq, Repr

def emptyOrgPayload : OrgPayload := ⟨none, none⟩

/-- Nested `users(id, name, email)` join payload. -/
structure UserPayload where
  id : Option Int
  name : Option String
  email : Option String
  deriving DecidableEq, Repr

def emptyUserPayload : UserPayload := ⟨none, none, none⟩

/-- Nested `labels(id, name, color)` join payload. -/
structure LabelPayload where
  id : Option Int
  name : Option String
  color : Option String
  deriving DecidableEq, Repr

def emptyLabelPayload : LabelPayload := ⟨none, none, none⟩

/-- An `org_members` row as joined onto a user:
`org_members(org_id, role, joined_at, organizations(id, name))`.
The outer `Option` of a field marks key presence (a missing key is a
`KeyError` on `row['key']`); the inner `Option` of `joined_at` is SQL NULL. -/
structure OrgMemberRow where
  org_id : Option Int
  role : Option String
  joined_at : Option (Option String)
  organizations : Option OrgPayload
  deriving DecidableEq, Repr

/-- An `org_members` row as joined onto an organization
(`org_members(user_id, role, joined_at)`); only its presence is used. -/
structure OrgMemberBrief where
  user_id : Option Int
  role : Option String
  joined_at : Option (Option String)
  deriving DecidableEq, Repr

/-- A source organization record. -/
structure SrcOrg where
  id : Option Int
  name : Option String
  created_at : Option (Option String)
  org_members : Option (List OrgMemberBrief)
  settings : Option Value

/-- A source user record with joined memberships. -/
structure SrcUser where
  id : Option Int
  email : Option String
  name : Option String
  created_at : Option (Option String)
  org_members : Option (List OrgMemberRow)
  deriving DecidableEq, Repr

/-- A source label record. -/
structure SrcLabel where
  id : Option Int
  org_id : Option Int
  name : Option String
  color : Option String
  created_at : Option (Option String)
  deriving DecidableEq, Repr

/-- A `task_assignees` row: `task_assignees(assigned_at, users(id, name, email))`. -/
structure AssigneeRow where
  assigned_at : Option (Option String)
  users : Option UserPayload
  deriving DecidableEq, Repr

/-- A `task_labels` row: `task_labels(labels(id, name, color))`. The outer
`Option` marks presence of the `labels` key; the inner `Option` is the value,
which a dangling join renders as SQL NULL (`labels: null` — key present,
payload `None`). -/
structure TaskLabelRow where
  labels : Option (Option LabelPayload)
  deriving DecidableEq, Repr

/-- A `comments` row: `comments(id, content, created_at, users(id, name, email))`. -/
structure CommentRow where
  id : Option Int
  content : Option String
  created_at : Option (Option String)
  users : Option UserPayload
  deriving DecidableEq, Repr

/-- A source task record with joined assignees, labels and comments. -/
structure SrcTask where
  id : Option Int
  project_id : Option Int
  title : Option String
  description : Option String
  status : Option String
  priority : Option String
  due_date : Option String
  created_at : Option (Option String)
  updated_at : Option (Option String)
  task_assignees : Option (List AssigneeRow)
  task_labels : Option (List TaskLabelRow)
  comments : Option (List CommentRow)
  deriving DecidableEq, Repr

/-- A source project record with joined organization payload. -/
structure SrcProject where
  id : Option Int
  org_id : Option Int
  name : Option String
  description : Option String
  status : Option String
  created_at : Option (Option String)
  organizations : Option OrgPayload
  deriving DecidableEq, Repr

/-- Embedding of `transform_organization` (transform.py:160). -/
def transform_organization (org : SrcOrg) (m : IDMapper) : Except PyErr (Doc × IDMapper) := do
  let pgid ← require "id" org.id
  let (mongo_id, m) := m.generate_org_id pgid
  let name ← require "name" org.name
  let ca ← require "created_at" org.created_at
  let doc : Doc :=
    [("_id", .oid mongo_id), ("pg_id", .int pgid), ("name", .str name),
     ("created_at", optDT (convert_timestamp ca)),
     ("member_count", .int (org.org_members.getD []).length),
     ("project_count", .int 0)]
  let doc := match org.settings with
    | some v => if pyTruthy v then doc ++ [("settings", v)] else doc
    | none => doc
  .ok (doc, m)

/-- Embedding of `transform_organizations` (transform.py:204). -/
def transform_organizations : List SrcOrg → IDMapper → Except PyErr (List Doc × IDMapper)
  | [], m => .ok ([], m)
  | org :: rest, m => do
      let (doc, m) ← transform_organization org m
      let (docs, m) ← transform_organizations rest m
      .ok (doc :: docs, m)

/-- The membership loop of `transform_user` (transform.py:268-277). -/
def buildMemberships : List OrgMemberRow → IDMapper → Except PyErr (List Doc × IDMapper)
  | [], m => .ok ([], m)
  | membership :: rest, m => do
      let org_data := membership.organizations.getD emptyOrgPayload
      let oi ← require "org_id" membership.org_id
      let (org_oid, m) := m.generate_org_id oi
      let role ← require "role" membership.role
      let ja ← require "joined_at" membership.joined_at
      let entry : Doc :=
        [("org_id", .oid org_oid), ("org_name", .str (org_data.name.getD "")),
         ("role", .str role), ("joined_at", optDT (convert_timestamp ja))]
      let (entries, m) ← buildMemberships rest m
      .ok (entry :: entries, m)

/-- Embedding of `transform_user` (transform.py:233). -/
def transform_user (user : SrcUser) (m : IDMapper) : Except PyErr (Doc × IDMapper) := do
  let pgid ← require "id" user.id
  let (mongo_id, m) := m.generate_user_id pgid
  let (organizations, m) ← buildMemberships (user.org_members.getD []) m
  let email ← require "email" user.email
  let name ← require "name" user.name
  let ca ← require "created_at" user.created_at
  let doc : Doc :=
    [("_id", .oid mongo_id), ("pg_id", .int pgid), ("email", .str email),
     ("name", .str name), ("created_at", optDT (convert_timestamp ca)),
     ("organizations", .arr (organizations.map Value.doc)),
     ("stats", .doc [("assigned_tasks", .int 0), ("completed_tasks", .int 0),
                     ("comments_made", .int 0)])]
  .ok (doc, m)

/-- Embedding of `transform_users` (transform.py:296). -/
def transform_users : List SrcUser → IDMapper → Except PyErr (List Doc × IDMapper)
  | [], m => .ok ([], m)
  | user :: rest, m => do
      let (doc, m) ← transform_user user m
      let (docs, m) ← transform_users rest m
      .ok (doc :: docs, m)

/-- Embedding of `transform_label` (transform.py:325). -/
def transform_label (label : SrcLabel) (m : IDMapper) : Except PyErr (Doc × IDMapper) := do
  let pgid ← require "id" label.id
  let (mongo_id, m) := m.generate_label_id pgid
  let oi ← require "org_id" label.org_id
  let (org_oid, m) := m.generate_org_id oi
  let name ← require "name" label.name
  let color ← require "color" label.color
  let ca ← require "created_at" label.created_at
  let doc : Doc :=
    [("_id", .oid mongo_id), ("pg_id", .int pgid), ("org_id", .oid org_oid),
     ("name", .str name), ("color", .str color),
     ("created_at", optDT (convert_timestamp ca)), ("usage_count", .int 0)]
  .ok (doc, m)

/-- Embedding of `transform_labels` (transform.py:357). -/
def transform_labels : List SrcLabel → IDMapper → Except PyErr (List Doc × IDMapper)
  | [], m => .ok ([], m)
  | label :: rest, m => do
      let (doc, m) ← transform_label label m
      let (docs, m) ← transform_labels rest m
      .ok (doc :: docs, m)

/-- The assignee loop of `transform_task` (transform.py:422-431): a missing
`users` payload defaults to `{}`, but `user_data['id']` then raises. -/
def buildAssignees : List AssigneeRow → IDMapper → Except PyErr (List Doc × IDMapper)
  | [], m => .ok ([], m)
  | assignment :: rest, m => do
      let user_data := assignment.users.getD emptyUserPayload
      let uid ← require "id" user_data.id
      let (user_oid, m) := m.generate_user_id uid
      let aa ← require "assigned_at" assignment.assigned_at
      let entry : Doc :=
        [("user_id", .oid user_oid), ("name", .str (user_data.name.getD "")),
         ("email", .str (user_data.email.getD "")),
         ("assigned_at", optDT (convert_timestamp aa))]
      let (entries, m) ← buildAssignees rest m
      .ok (entry :: entries, m)

/-- The label loop of `transform_task` (transform.py:434-444):
`label_data = task_label.get('labels', {})` yields the `{}` default only when
the key is absent — a key present with a null payload yields `None`, and the
following `label_data.get('id')` then raises `AttributeError`. Otherwise the
row is kept only when `label_data.get('id')` is truthy (`if label_pg_id:`),
so a `{}` payload, a missing/None id, and an id of 0 are all skipped. -/
def buildLabels : List TaskLabelRow → IDMapper → Except PyErr (List Doc × IDMapper)
  | [], m => .ok ([], m)
  | task_label :: rest, m =>
      match task_label.labels.getD (some emptyLabelPayload) with
      | none => .error .attributeError
      | some label_data =>
          match label_data.id with
          | some lid =>
              if lid ≠ 0 then do
                let (label_oid, m) := m.generate_label_id lid
                let entry : Doc :=
                  [("label_id", .oid label_oid), ("name", .str (label_data.name.getD "")),
                   ("color", .str (label_data.color.getD "#000000"))]
                let (entries, m) ← buildLabels rest m
                .ok (entry :: entries, m)
              else buildLabels rest m
          | none => buildLabels rest m

/-- The comment loop of `transform_task` (transform.py:447-458). -/
def buildComments : List CommentRow → IDMapper → Except PyErr (List Doc × IDMapper)
  | [], m => .ok ([], m)
  | comment :: rest, m => do
      let user_data := comment.users.getD emptyUserPayload
      let cid ← require "id" comment.id
      let (comment_oid, m) := m.generate_comment_id cid
      let uid ← require "id" user_data.id
      let (user_oid, m) := m.generate_user_id uid
      let content ← require "content" comment.content
      let ca ← require "created_at" comment.created_at
      let entry : Doc :=
        [("_id", .oid comment_oid), ("pg_id", .int cid), ("user_id", .oid user_oid),
         ("author_name", .str (user_data.name.getD "")), ("content", .str content),
         ("created_at", optDT (convert_timestamp ca))]
      let (entries, m) ← buildComments rest m
      .ok (entry :: entries, m)

/-- The sort key `c['created_at'] or datetime.min` (transform.py:461): `None`
is falsy and becomes `datetime.min`; a datetime is truthy and is its own key.
Constructed comment documents always carry a `"created_at"` key holding either
a datetime or null. -/
def commentSortKey (c : Doc) : Except PyErr DateTime :=
  match c.lookup "created_at" with
  | some (.dt d) => .ok d
  | some .null => .ok datetimeMin
  | some _ => .error .typeError
  | none => .error (.keyError "created_at")

/-- Stable insertion of a keyed element into an ascending keyed list, using
Python's fallible `<` on datetimes (an element moves past exactly the keys
strictly smaller than its own, so equal keys keep input order). -/
def pyInsertSorted (x : DateTime × Doc) : List (DateTime × Doc) → Except PyErr (List (DateTime × Doc))
  | [] => .ok [x]
  | y :: ys => do
      let lt ← pyLT y.1 x.1
      if lt then do
        let rest ← pyInsertSorted x ys
        .ok (y :: rest)
      else
        .ok (x :: y :: ys)

/-- Stable fallible sort on keyed pairs. For fully comparable keys this agrees
with CPython's stable `list.sort`, and on a two-element list it performs the
same single comparison, so it also agrees on whether that comparison raises. -/
def pySortPairs : List (DateTime × Doc) → Except PyErr (List (DateTime × Doc))
  | [] => .ok []
  | x :: xs => do
      let sorted ← pySortPairs xs
      pyInsertSorted x sorted

/-- Key decoration: CPython's `list.sort(key=…)` computes every key before
any comparison happens. -/
def decorateKeys : List Doc → Except PyErr (List (DateTime × Doc))
  | [] => .ok []
  | c :: cs => do
      let k ← commentSortKey c
      let rest ← decorateKeys cs
      .ok ((k, c) :: rest)

/-- `comments.sort(key=lambda c: c['created_at'] or datetime.min)`
(transform.py:461): CPython first computes every key, then stable-sorts by
comparing keys with `<`. -/
def sortCommentsPy (cs : List Doc) : Except PyErr (List Doc) := do
  let pairs ← decorateKeys cs
  let sorted ← pySortPairs pairs
  .ok (sorted.map (·.2))

/-- Embedding of `transform_task` (transform.py:386). The `labels_lookup`
argument is accepted and unused, exactly as in the source. -/
def transform_task (task : SrcTask) (m : IDMapper) (labels_lookup : List (Int × SrcLabel)) :
    Except PyErr (Doc × IDMapper) := do
  let tid ← require "id" task.id
  let (mongo_id, m) := m.generate_task_id tid
  let (assignees, m) ← buildAssignees (task.task_assignees.getD []) m
  let (labels, m) ← buildLabels (task.task_labels.getD []) m
  let (comments0, m) ← buildComments (task.comments.getD []) m
  let comments ← sortCommentsPy comments0
  let title ← require "title" task.title
  let status ← require "status" task.status
  let priority ← require "priority" task.priority
  let ca ← require "created_at" task.created_at
  let ua ← require "updated_at" task.updated_at
  let doc : Doc :=
    [("_id", .oid mongo_id), ("pg_id", .int tid), ("title", .str title),
     ("description", optStr task.description),
     ("status", .str status), ("priority", .str priority),
     ("due_date", optDT (convert_timestamp task.due_date)),
     ("created_at", optDT (convert_timestamp ca)),
     ("updated_at", optDT (convert_timestamp ua)),
     ("assignees", .arr (assignees.map Value.doc)),
     ("labels", .arr (labels.map Value.doc)),
     ("comments", .arr (comments.map Value.doc)),
     ("comment_count", .int comments.length),
     ("assignee_count", .int assignees.length)]
  let doc := if task.description.isNone then doc.filter (fun kv => kv.1 ≠ "description") else doc
  .ok (doc, m)

/-- `t['status'] == s` on a produced task document. -/
def statusIs (s : String) (d : Doc) : Bool :=
  match d.lookup "status" with
  | some (.str st) => st = s
  | _ => false

/-- `t['comment_count']` on a produced task document; the key is present on
every document `transform_task` produces, so the fallback is unreachable. -/
def getIntD (d : Doc) (k : String) : Int :=
  match d.lookup k with
  | some (.int n) => n
  | _ => 0

/-- The task-filtering loop of `transform_project` (transform.py:527-531):
keep and transform exactly the tasks with `task['project_id'] == project['id']`. -/
def embedTasks (pid : Int) (tasks : List SrcTask) (m : IDMapper)
    (labels_lookup : List (Int × SrcLabel)) : Except PyErr (List Doc × IDMapper) :=
  match tasks with
  | [] => .ok ([], m)
  | task :: rest => do
      let tpid ← require "project_id" task.project_id
      if tpid = pid then do
        let (task_doc, m) ← transform_task task m labels_lookup
        let (docs, m) ← embedTasks pid rest m labels_lookup
        .ok (task_doc :: docs, m)
      else embedTasks pid rest m labels_lookup

/-- Embedding of `transform_project` (transform.py:492). -/
def transform_project (project : SrcProject) (tasks : List SrcTask) (m : IDMapper)
    (labels_lookup : List (Int × SrcLabel)) : Except PyErr (Doc × IDMapper) := do
  let pid ← require "id" project.id
  let (mongo_id, m) := m.generate_project_id pid
  let org_data := project.organizations.getD emptyOrgPayload
  let (transformed_tasks, m) ← embedTasks pid tasks m labels_lookup
  let stats : Doc :=
    [("total_tasks", .int transformed_tasks.length),
     ("completed_tasks", .int (transformed_tasks.countP (statusIs "completed") : Nat)),
     ("in_progress_tasks", .int (transformed_tasks.countP (statusIs "in_progress") : Nat)),
     ("todo_tasks", .int (transformed_tasks.countP (statusIs "todo") : Nat)),
     ("total_comments", .int ((transformed_tasks.map (getIntD · "comment_count")).sum))]
  let oi ← require "org_id" project.org_id
  let (org_oid, m) := m.generate_org_id oi
  let name ← require "name" project.name
  let status ← require "status" project.status
  let ca ← require "created_at" project.created_at
  let doc : Doc :=
    [("_id", .oid mongo_id), ("pg_id", .int pid), ("org_id", .oid org_oid),
     ("org_name", .str (org_data.name.getD "")), ("name", .str name),
     ("description", optStr project.description), ("status", .str status),
     ("created_at", optDT (convert_timestamp ca)),
     ("tasks", .arr (transformed_tasks.map Value.doc)), ("stats", .doc stats)]
  let doc := if project.description.isNone then doc.filter (fun kv => kv.1 ≠ "description") else doc
  .ok (doc, m)

/-- Embedding of `transform_projects` (transform.py:562). -/
def transform_projects (projects : List SrcProject) (tasks : List SrcTask) (m : IDMapper)
    (labels_lookup : List (Int × SrcLabel)) : Except PyErr (List Doc × IDMapper) :=
  match projects with
  | [] => .ok ([], m)
  | project :: rest => do
      let (doc, m) ← transform_project project tasks m labels_lookup
      let (docs, m) ← transform_projects rest tasks m labels_lookup
      .ok (doc :: docs, m)

/-- Extracted source data (`source_data` in transform.py:598). -/
structure SrcData where
  organizations : List SrcOrg
  users : List SrcUser
  labels : List SrcLabel
  projects : List SrcProject
  tasks : List SrcTask

/-- Transformed output (`mongo_data` in transform.py:598). -/
structure MongoData where
  organizations : List Doc
  users : List Doc
  labels : List Doc
  projects : List Doc

/-- `labels_lookup = {label['id']: label for label in source_data['labels']}`
(transform.py:642). -/
def buildLabelsLookup : List SrcLabel → Except PyErr (List (Int × SrcLabel))
  | [] => .ok []
  | label :: rest => do
      let lid ← require "id" label.id
      let tail ← buildLabelsLookup rest
      .ok ((lid, label) :: tail)

/-- Embedding of `transform_all_data` (transform.py:598): the four passes run
in order inside one `try` whose handler only logs and re-raises, so any failing
record aborts the whole transformation with no partial output. -/
def transform_all_data (source_data : SrcData) : Except PyErr MongoData := do
  let id_mapper := IDMapper.init
  let labels_lookup ← buildLabelsLookup source_data.labels
  let (orgs, id_mapper) ← transform_organizations source_data.organizations id_mapper
  let (users, id_mapper) ← transform_users source_data.users id_mapper
  let (labelDocs, id_mapper) ← transform_labels source_data.labels id_mapper
  let (projectDocs, _) ←
    transform_projects source_data.projects source_data.tasks id_mapper labels_lookup
  .ok ⟨orgs, users, labelDocs, projectDocs⟩

theorem except_bind_ok {α β : Type} {x : Except PyErr α} {f : α → Except PyErr β} {b : β} :
    x.bind f = .ok b ↔ ∃ a, x = .ok a ∧ f a = .ok b := by
  cases x <;> simp [Except.bind]

theorem require_ok {α : Type} {k : String} {o : Option α} {a : α} :
    require k o = .ok a ↔ o = some a := by
  cases o <;> simp [require]

theorem lookup_filter_key {β : Type} (l : List (String × β)) (k : String) :
    (l.filter (fun kv => kv.1 ≠ k)).lookup k = none := by
  induction l with
  | nil => rfl
  | cons x xs ih =>
      by_cases h : x.1 = k
      · simpa [List.filter, h] using ih
      · have hk : (k == x.1) = false := beq_eq_false_iff_ne.mpr (Ne.symm h)
        simpa [List.filter, h, List.lookup, hk] using ih

/-- C2: within one mapper instance, `idFor` is memoized: for each of the six
entity types, calling the generate function again on the same source id
returns exactly the first call's id with the state unchanged, and the first
call on a fresh id records the freshly allocated ObjectId. -/
theorem idmapper_idFor_memoized (m : IDMapper) (pg : Int) :
    ((m.generate_org_id pg).2.generate_org_id pg = m.generate_org_id pg
      ∧ (m.org_ids.lookup pg = none → (m.generate_org_id pg).1 = m.next))
    ∧ ((m.generate_user_id pg).2.generate_user_id pg = m.generate_user_id pg
      ∧ (m.user_ids.lookup pg = none → (m.generate_user_id pg).1 = m.next))
    ∧ ((m.generate_label_id pg).2.generate_label_id pg = m.generate_label_id pg
      ∧ (m.label_ids.lookup pg = none → (m.generate_label_id pg).1 = m.next))
    ∧ ((m.generate_project_id pg).2.generate_project_id pg = m.generate_project_id pg
      ∧ (m.project_ids.lookup pg = none → (m.generate_project_id pg).1 = m.next))
    ∧ ((m.generate_task_id pg).2.generate_task_id pg = m.generate_task_id pg
      ∧ (m.task_ids.lookup pg = none → (m.generate_task_id pg).1 = m.next))
    ∧ ((m.generate_comment_id pg).2.generate_comment_id pg = m.generate_comment_id pg
      ∧ (m.comment_ids.lookup pg = none → (m.generate_comment_id pg).1 = m.next)) := by
  refine ⟨⟨?_, ?_⟩, ⟨?_, ?_⟩, ⟨?_, ?_⟩, ⟨?_, ?_⟩, ⟨?_, ?_⟩, ⟨?_, ?_⟩⟩
  case _ => cases h : m.org_ids.lookup pg <;>
    simp [IDMapper.generate_org_id, h, List.lookup]
  case _ => cases h : m.org_ids.lookup pg <;>
    simp [IDMapper.generate_org_id, h, List.lookup]
  case _ => cases h : m.user_ids.lookup pg <;>
    simp [IDMapper.generate_user_id, h, List.lookup]
  case _ => cases h : m.user_ids.lookup pg <;>
    simp [IDMapper.generate_user_id, h, List.lookup]
  case _ => cases h : m.label_ids.lookup pg <;>
    simp [IDMapper.generate_label_id, h, List.lookup]
  case _ => cases h : m.label_ids.lookup pg <;>
    simp [IDMapper.generate_label_id, h, List.lookup]
  case _ => cases h : m.project_ids.lookup pg <;>
    simp [IDMapper.generate_project_id, h, List.lookup]
  case _ => cases h : m.project_ids.lookup pg <;>
    simp [IDMapper.generate_project_id, h, List.lookup]
  case _ => cases h : m.task_ids.lookup pg <;>
    simp [IDMapper.generate_task_id, h, List.lookup]
  case _ => cases h : m.task_ids.lookup pg <;>
    simp [IDMapper.generate_task_id, h, List.lookup]
  case _ => cases h : m.comment_ids.lookup pg <;>
    simp [IDMapper.generate_comment_id, h, List.lookup]
  case _ => cases h : m.comment_ids.lookup pg <;>
    simp [IDMapper.generate_comment_id, h, List.lookup]

/-- Witness for C2 at the empty mapper and source id 5. -/
theorem idmapper_idFor_memoized_witness :
    (IDMapper.init.generate_org_id 5).2.generate_org_id 5 = IDMapper.init.generate_org_id 5
    ∧ (IDMapper.init.generate_org_id 5).1 = IDMapper.init.next :=
  ⟨(idmapper_idFor_memoized IDMapper.init 5).1.1,
   (idmapper_idFor_memoized IDMapper.init 5).1.2 rfl⟩

/-- Mapper states reachable within one run: the empty initial state closed
under the six generate operations. -/
inductive Reached : IDMapper → Prop where
  | init : Reached IDMapper.init
  | org (m : IDMapper) (pg : Int) : Reached m → Reached (m.generate_org_id pg).2
  | user (m : IDMapper) (pg : Int) : Reached m → Reached (m.generate_user_id pg).2
  | label (m : IDMapper) (pg : Int) : Reached m → Reached (m.generate_label_id pg).2
  | project (m : IDMapper) (pg : Int) : Reached m → Reached (m.generate_project_id pg).2
  | task (m : IDMapper) (pg : Int) : Reached m → Reached (m.generate_task_id pg).2
  | comment (m : IDMapper) (pg : Int) : Reached m → Reached (m.generate_comment_id pg).2

/-- Run invariant of the mapper: every recorded ObjectId is below the fresh
supply, and jointly across all six tables a recorded ObjectId determines its
(entity type, source id) pair. -/
def MapperInv (m : IDMapper) : Prop :=
  (∀ e k v, (k, v) ∈ m.tableOf e → v < m.next)
  ∧ (∀ e₁ e₂ k₁ k₂ v, (k₁, v) ∈ m.tableOf e₁ → (k₂, v) ∈ m.tableOf e₂ → e₁ = e₂ ∧ k₁ = k₂)

theorem mapperInv_init : MapperInv IDMapper.init := by
  constructor
  · intro e k v hm; cases e <;> simp [IDMapper.tableOf, IDMapper.init] at hm
  · intro e₁ e₂ k₁ k₂ v h₁ h₂; cases e₁ <;> simp [IDMapper.tableOf, IDMapper.init] at h₁

theorem mapperInv_insert {m m' : IDMapper} {e₀ : EType} {pg : Int}
    (hnext : m'.next = m.next + 1)
    (htab : ∀ e, m'.tableOf e = if e = e₀ then (pg, m.next) :: m.tableOf e else m.tableOf e)
    (hinv : MapperInv m) : MapperInv m' := by
  constructor
  · intro e k v hm
    rw [htab e] at hm
    rw [hnext]
    by_cases he : e = e₀
    · rw [if_pos he] at hm
      rcases List.mem_cons.mp hm with h | h
      · cases h; omega
      · exact Nat.lt_succ_of_lt (hinv.1 e k v h)
    · rw [if_neg he] at hm
      exact Nat.lt_succ_of_lt (hinv.1 e k v hm)
  · intro e₁ e₂ k₁ k₂ v h₁ h₂
    rw [htab e₁] at h₁
    rw [htab e₂] at h₂
    by_cases he₁ : e₁ = e₀ <;> by_cases he₂ : e₂ = e₀
    · rw [if_pos he₁] at h₁
      rw [if_pos he₂] at h₂
      rcases List.mem_cons.mp h₁ with h₁ | h₁ <;> rcases List.mem_cons.mp h₂ with h₂ | h₂
      · cases h₁; cases h₂; exact ⟨he₁.trans he₂.symm, rfl⟩
      · cases h₁; exact absurd (hinv.1 e₂ k₂ _ h₂) (lt_irrefl _)
      · cases h₂; exact absurd (hinv.1 e₁ k₁ _ h₁) (lt_irrefl _)
      · exact hinv.2 e₁ e₂ k₁ k₂ v h₁ h₂
    · rw [if_pos he₁] at h₁
      rw [if_neg he₂] at h₂
      rcases List.mem_cons.mp h₁ with h₁ | h₁
      · cases h₁; exact absurd (hinv.1 e₂ k₂ _ h₂) (lt_irrefl _)
      · exact hinv.2 e₁ e₂ k₁ k₂ v h₁ h₂
    · rw [if_neg he₁] at h₁
      rw [if_pos he₂] at h₂
      rcases List.mem_cons.mp h₂ with h₂ | h₂
      · cases h₂; exact absurd (hinv.1 e₁ k₁ _ h₁) (lt_irrefl _)
      · exact hinv.2 e₁ e₂ k₁ k₂ v h₁ h₂
    · rw [if_neg he₁] at h₁
      rw [if_neg he₂] at h₂
      exact hinv.2 e₁ e₂ k₁ k₂ v h₁ h₂

theorem mapperInv_reached {m : IDMapper} (h : Reached m) : MapperInv m := by
  induction h with
  | init => exact mapperInv_init
  | org m pg _ ih =>
      cases hl : m.org_ids.lookup pg
      · refine @mapperInv_insert m _ .org pg ?_ ?_ ih <;>
          simp only [IDMapper.generate_org_id, hl]
        intro e; cases e <;> simp [IDMapper.tableOf]
      · simpa [IDMapper.generate_org_id, hl] using ih
  | user m pg _ ih =>
      cases hl : m.user_ids.lookup pg
      · refine @mapperInv_insert m _ .user pg ?_ ?_ ih <;>
          simp only [IDMapper.generate_user_id, hl]
        intro e; cases e <;> simp [IDMapper.tableOf]
      · simpa [IDMapper.generate_user_id, hl] using ih
  | label m pg _ ih =>
      cases hl : m.label_ids.lookup pg
      · refine @mapperInv_insert m _ .label pg ?_ ?_ ih <;>
          simp only [IDMapper.generate_label_id, hl]
        intro e; cases e <;> simp [IDMapper.tableOf]
      · simpa [IDMapper.generate_label_id, hl] using ih
  | project m pg _ ih =>
      cases hl : m.project_ids.lookup pg
      · refine @mapperInv_insert m _ .project pg ?_ ?_ ih <;>
          simp only [IDMapper.generate_project_id, hl]
        intro e; cases e <;> simp [IDMapper.tableOf]
      · simpa [IDMapper.generate_project_id, hl] using ih
  | task m pg _ ih =>
      cases hl : m.task_ids.lookup pg
      · refine @mapperInv_insert m _ .task pg ?_ ?_ ih <;>
          simp only [IDMapper.generate_task_id, hl]
        intro e; cases e <;> simp [IDMapper.tableOf]
      · simpa [IDMapper.generate_task_id, hl] using ih
  | comment m pg _ ih =>
      cases hl : m.comment_ids.lookup pg
      · refine @mapperInv_insert m _ .comment pg ?_ ?_ ih <;>
          simp only [IDMapper.generate_comment_id, hl]
        intro e; cases e <;> simp [IDMapper.tableOf]
      · simpa [IDMapper.generate_comment_id, hl] using ih

/-- C5: in any mapper state reachable within one run, the six per-entity-type
mapping tables never map entries of two different entity types to the same
generated ObjectId. -/
theorem idmapper_cross_type_disjoint (m : IDMapper) (h : Reached m)
    (e₁ e₂ : EType) (k₁ k₂ : Int) (v₁ v₂ : Nat)
    (h₁ : (k₁, v₁) ∈ m.tableOf e₁) (h₂ : (k₂, v₂) ∈ m.tableOf e₂)
    (hne : e₁ ≠ e₂) : v₁ ≠ v₂ := by
  intro hv
  exact hne ((mapperInv_reached h).2 e₁ e₂ k₁ k₂ v₁ h₁ (hv ▸ h₂)).1

/-- Witness for C5: after registering org 1 and user 1 from the initial
state, their generated ids (0 and 1) differ. -/
theorem idmapper_cross_type_disjoint_witness : (0 : Nat) ≠ 1 :=
  idmapper_cross_type_disjoint ((IDMapper.init.generate_org_id 1).2.generate_user_id 1).2
    (Reached.user _ 1 (Reached.org _ 1 Reached.init))
    .org .user 1 1 0 1 (by decide) (by decide) (by decide)

theorem bind_ok_simp {α β : Type} {x : Except PyErr α} {f : α → Except PyErr β} {b : β} :
    (x >>= f) = .ok b ↔ ∃ a, x = .ok a ∧ f a = .ok b := except_bind_ok

/-- C8: `convert_timestamp` maps a null input to null; for a non-null string
it returns exactly what parsing the `'Z'`-normalized string yields — `none`
(a caught `ValueError`, never an escaping exception) on unparseable input and
the corresponding datetime on valid ISO input — illustrated on concrete
parseable and unparseable strings, including `'Z'`-suffixed ones. -/
theorem convert_timestamp_graceful :
    convert_timestamp none = none
    ∧ (∀ s : String, convert_timestamp (some s) = fromisoformat (replaceZ s))
    ∧ fromisoformat "2024-01-15T10:00:00+00:00" = some ⟨2024, 1, 15, 10, 0, 0, 0, some 0⟩
    ∧ fromisoformat "not-a-timestamp" = none
    ∧ convert_timestamp (some "2024-01-15T10:00:00Z") = some ⟨2024, 1, 15, 10, 0, 0, 0, some 0⟩
    ∧ convert_timestamp (some "2024-13-99T99:99:99") = none :=
  ⟨rfl, fun _ => rfl, by decide, by decide, by decide, by decide⟩

/-- A comment whose `created_at` is SQL NULL. -/
def cmtNullTs : CommentRow :=
  ⟨some 1, some "first", some none, some ⟨some 7, some "Ann", some "ann@example.com"⟩⟩

/-- A comment with an offset-aware timestamp, as a `timestamptz` column
renders in ISO form. -/
def cmtAwareTs : CommentRow :=
  ⟨some 2, some "second", some (some "2024-01-15T10:00:00+00:00"),
   some ⟨some 7, some "Ann", some "ann@example.com"⟩⟩

/-- A well-formed task holding one null-timestamp comment and one
aware-timestamp comment. -/
def taskMixedTimestamps : SrcTask :=
  ⟨some 1, some 1, some "t", none, some "todo", some "low", none,
   some (some "2024-01-01T00:00:00+00:00"), some (some "2024-01-01T00:00:00+00:00"),
   some [], some [], some [cmtNullTs, cmtAwareTs]⟩

/-- C3 (code bug): sorting the comments compares the offset-naive
`datetime.min` key of the null-timestamp comment against the offset-aware key
of the other comment, which raises `TypeError` in Python — `transform_task`
crashes instead of producing a comment array with the null-timestamp comment
first, as the spec's ordering rule requires. -/
theorem transform_task_mixed_timestamps_raises :
    transform_task taskMixedTimestamps IDMapper.init [] = .error .typeError := rfl

/-- A task whose optional `description` and `due_date` are both null. -/
def taskNullOptional : SrcTask :=
  ⟨some 2, some 1, some "t", none, some "todo", some "low", none,
   some (some "2024-01-01T00:00:00+00:00"), some (some "2024-01-01T00:00:00+00:00"),
   some [], some [], some []⟩

/-- C4 counterexample: for a task with null `due_date`, the produced document
stores the key `due_date` with an explicit null value (only `description` is
removed), contradicting the claim that no key is present for an absent
optional field. -/
theorem task_null_due_date_key_stored :
    (transform_task taskNullOptional IDMapper.init []).map
      (fun r => (r.1.lookup "due_date", r.1.lookup "description"))
      = .ok (some .null, none) := rfl

/-- C4 (amended): a null/absent `description` is removed from both task and
project documents before they are returned, but a task's null/absent
`due_date` is kept as an explicit `due_date: null` entry. -/
theorem optional_field_omission_amended :
    (∀ (task : SrcTask) (m : IDMapper) (ll : List (Int × SrcLabel)) (doc : Doc) (m' : IDMapper),
      task.description = none → transform_task task m ll = .ok (doc, m') →
      doc.lookup "description" = none)
    ∧ (∀ (project : SrcProject) (tasks : List SrcTask) (m : IDMapper)
        (ll : List (Int × SrcLabel)) (doc : Doc) (m' : IDMapper),
      project.description = none → transform_project project tasks m ll = .ok (doc, m') →
      doc.lookup "description" = none)
    ∧ (∀ (task : SrcTask) (m : IDMapper) (ll : List (Int × SrcLabel)) (doc : Doc) (m' : IDMapper),
      task.due_date = none → transform_task task m ll = .ok (doc, m') →
      doc.lookup "due_date" = some .null) := by
  refine ⟨?_, ?_, ?_⟩
  · intro task m ll doc m' hdesc hok
    rw [transform_task] at hok
    simp only [bind_ok_simp, require_ok] at hok
    obtain ⟨tid, htid, ⟨am, ham, ⟨lm, hlm, ⟨cm, hcm, ⟨sc, hsc, ⟨title, htitle, ⟨st, hst,
      ⟨pr, hpr, ⟨ca, hca, ⟨ua, hua, hok⟩⟩⟩⟩⟩⟩⟩⟩⟩⟩ := hok
    rw [hdesc] at hok
    simp only [Option.isNone_none, if_pos, Except.ok.injEq, Prod.mk.injEq] at hok
    obtain ⟨h1, _⟩ := hok
    rw [← h1]
    exact lookup_filter_key _ _
  · intro project tasks m ll doc m' hdesc hok
    rw [transform_project] at hok
    simp only [bind_ok_simp, require_ok] at hok
    obtain ⟨pid, hpid, ⟨tds, htds, ⟨oi, hoi, ⟨nm, hnm, ⟨st, hst, ⟨ca, hca, hok⟩⟩⟩⟩⟩⟩ := hok
    rw [hdesc] at hok
    simp only [Option.isNone_none, if_pos, Except.ok.injEq, Prod.mk.injEq] at hok
    obtain ⟨h1, _⟩ := hok
    rw [← h1]
    exact lookup_filter_key _ _
  · intro task m ll doc m' hdue hok
    rw [transform_task] at hok
    simp only [bind_ok_simp, require_ok] at hok
    obtain ⟨tid, htid, ⟨am, ham, ⟨lm, hlm, ⟨cm, hcm, ⟨sc, hsc, ⟨title, htitle, ⟨st, hst,
      ⟨pr, hpr, ⟨ca, hca, ⟨ua, hua, hok⟩⟩⟩⟩⟩⟩⟩⟩⟩⟩ := hok
    rw [hdue] at hok
    simp only [Except.ok.injEq, Prod.mk.injEq] at hok
    obtain ⟨h1, _⟩ := hok
    rw [← h1]
    by_cases hd : task.description.isNone
    · rw [if_pos hd]
      simp [List.filter, List.lookup, convert_timestamp, optDT]
    · rw [if_neg hd]
      simp [List.lookup, convert_timestamp, optDT]

/-- The result of transforming `taskNullOptional` from the empty mapper. -/
def c4TaskRes : Except PyErr (Doc × IDMapper) := transform_task taskNullOptional IDMapper.init []

def c4doc : Doc := match c4TaskRes with | .ok (d, _) => d | .error _ => []

def c4map : IDMapper := match c4TaskRes with | .ok (_, m) => m | .error _ => IDMapper.init

/-- A project with null `description`. -/
def projNullDesc : SrcProject :=
  ⟨some 1, some 1, some "P", none, some "active", some (some "2024-01-01T00:00:00Z"),
   some ⟨some 1, some "Acme"⟩⟩

def c4ProjRes : Except PyErr (Doc × IDMapper) := transform_project projNullDesc [] IDMapper.init []

def c4pdoc : Doc := match c4ProjRes with | .ok (d, _) => d | .error _ => []

def c4pmap : IDMapper := match c4ProjRes with | .ok (_, m) => m | .error _ => IDMapper.init

/-- Witness for the amended C4 at concrete task and project inputs. -/
theorem optional_field_omission_amended_witness :
    c4doc.lookup "description" = none
    ∧ c4pdoc.lookup "description" = none
    ∧ c4doc.lookup "due_date" = some .null :=
  ⟨optional_field_omission_amended.1 taskNullOptional IDMapper.init [] c4doc c4map rfl rfl,
   optional_field_omission_amended.2.1 projNullDesc [] IDMapper.init [] c4pdoc c4pmap rfl rfl,
   optional_field_omission_amended.2.2 taskNullOptional IDMapper.init [] c4doc c4map rfl rfl⟩

theorem buildAssignees_length {rows : List AssigneeRow} {m : IDMapper} {ds : List Doc}
    {m' : IDMapper} (h : buildAssignees rows m = .ok (ds, m')) : ds.length = rows.length := by
  induction rows generalizing m ds m' with
  | nil =>
      rw [buildAssignees] at h
      simp only [Except.ok.injEq, Prod.mk.injEq] at h
      rw [← h.1]
      rfl
  | cons a rows ih =>
      rw [buildAssignees] at h
      simp only [bind_ok_simp, require_ok] at h
      obtain ⟨uid, huid, ⟨aa, haa, ⟨es, hes, h⟩⟩⟩ := h
      simp only [Except.ok.injEq, Prod.mk.injEq] at h
      rw [← h.1]
      simp [ih hes]

theorem buildComments_length {rows : List CommentRow} {m : IDMapper} {ds : List Doc}
    {m' : IDMapper} (h : buildComments rows m = .ok (ds, m')) : ds.length = rows.length := by
  induction rows generalizing m ds m' with
  | nil =>
      rw [buildComments] at h
      simp only [Except.ok.injEq, Prod.mk.injEq] at h
      rw [← h.1]
      rfl
  | cons c rows ih =>
      rw [buildComments] at h
      simp only [bind_ok_simp, require_ok] at h
      obtain ⟨cid, hcid, ⟨uid, huid, ⟨content, hcontent, ⟨ca, hca, ⟨es, hes, h⟩⟩⟩⟩⟩ := h
      simp only [Except.ok.injEq, Prod.mk.injEq] at h
      rw [← h.1]
      simp [ih hes]

theorem decorateKeys_length {cs : List Doc} {ps : List (DateTime × Doc)}
    (h : decorateKeys cs = .ok ps) : ps.length = cs.length := by
  induction cs generalizing ps with
  | nil =>
      rw [decorateKeys] at h
      simp only [Except.ok.injEq] at h
      rw [← h]
      rfl
  | cons c cs ih =>
      rw [decorateKeys] at h
      simp only [bind_ok_simp] at h
      obtain ⟨k, hk, ⟨rest, hrest, h⟩⟩ := h
      simp only [Except.ok.injEq] at h
      rw [← h]
      simp [ih hrest]

theorem pyInsertSorted_length {x : DateTime × Doc} {l l' : List (DateTime × Doc)}
    (h : pyInsertSorted x l = .ok l') : l'.length = l.length + 1 := by
  induction l generalizing l' with
  | nil =>
      rw [pyInsertSorted] at h
      simp only [Except.ok.injEq] at h
      rw [← h]
      rfl
  | cons y ys ih =>
      rw [pyInsertSorted] at h
      simp only [bind_ok_simp] at h
      obtain ⟨lt, hlt, h⟩ := h
      cases lt with
      | true =>
          simp only [if_pos, bind_ok_simp] at h
          obtain ⟨rest, hrest, h⟩ := h
          simp only [Except.ok.injEq] at h
          rw [← h]
          simp [ih hrest]
      | false =>
          simp at h
          subst h
          rfl

theorem pySortPairs_length {l l' : List (DateTime × Doc)}
    (h : pySortPairs l = .ok l') : l'.length = l.length := by
  induction l generalizing l' with
  | nil =>
      rw [pySortPairs] at h
      simp only [Except.ok.injEq] at h
      rw [← h]
  | cons x xs ih =>
      rw [pySortPairs] at h
      simp only [bind_ok_simp] at h
      obtain ⟨sorted, hsorted, h⟩ := h
      rw [pyInsertSorted_length h, ih hsorted]
      simp

theorem sortCommentsPy_length {cs cs' : List Doc}
    (h : sortCommentsPy cs = .ok cs') : cs'.length = cs.length := by
  rw [sortCommentsPy] at h
  simp only [bind_ok_simp] at h
  obtain ⟨pairs, hpairs, ⟨sorted, hsorted, h⟩⟩ := h
  simp only [Except.ok.injEq] at h
  rw [← h]
  simp [pySortPairs_length hsorted, decorateKeys_length hpairs]

/-- A task whose single `task_labels` row has the `labels` key present with a
null payload — the dangling-join shape a nested select produces, and the
spec's own defensive-skip scenario. -/
def taskNullLabelPayload : SrcTask :=
  ⟨some 3, some 1, some "t", none, some "todo", some "low", none,
   some (some "2024-01-01T00:00:00Z"), some (some "2024-01-01T00:00:00Z"),
   some [], some [⟨some none⟩], some []⟩

/-- C7 (code bug): on a join row whose nested label payload is null,
`task_label.get('labels', {})` returns `None` (the `{}` default applies only
to an absent key), so `label_data.get('id')` raises `AttributeError` —
`transform_task` aborts the whole transformation instead of silently skipping
the row as the claim and the spec's scenario require. -/
theorem task_label_null_payload_raises :
    transform_task taskNullLabelPayload IDMapper.init [] = .error .attributeError := rfl

/-- C9: when a joined relation payload is present but lacks a denormalized
scalar field, the transformers substitute a default instead of failing: a
membership's org name, an assignee's name/email, and a comment author's name
default to the empty string, and a label's name defaults to the empty string
with color defaulting to '#000000'. -/
theorem joined_payload_defaults :
    (∀ (r : OrgMemberRow) (m : IDMapper) (p : OrgPayload) (oi : Int) (ro : String)
        (ja : Option String),
      r.organizations = some p → p.name = none → r.org_id = some oi → r.role = some ro →
      r.joined_at = some ja →
      (buildMemberships [r] m).map (fun x => x.1.map (fun e => e.lookup "org_name"))
        = .ok [some (.str "")])
    ∧ (∀ (a : AssigneeRow) (m : IDMapper) (u : UserPayload) (i : Int) (t : Option String),
      a.users = some u → u.name = none → u.email = none → u.id = some i →
      a.assigned_at = some t →
      (buildAssignees [a] m).map (fun x => x.1.map (fun e => (e.lookup "name", e.lookup "email")))
        = .ok [(some (.str ""), some (.str ""))])
    ∧ (∀ (tl : TaskLabelRow) (m : IDMapper) (p : LabelPayload) (lid : Int),
      tl.labels = some (some p) → p.id = some lid → lid ≠ 0 → p.name = none → p.color = none →
      (buildLabels [tl] m).map (fun x => x.1.map (fun e => (e.lookup "name", e.lookup "color")))
        = .ok [(some (.str ""), some (.str "#000000"))])
    ∧ (∀ (c : CommentRow) (m : IDMapper) (u : UserPayload) (i : Int) (ci : Int) (co : String)
        (ts : Option String),
      c.users = some u → u.id = some i → u.name = none → c.id = some ci → c.content = some co →
      c.created_at = some ts →
      (buildComments [c] m).map (fun x => x.1.map (fun e => e.lookup "author_name"))
        = .ok [some (.str "")]) := by
  refine ⟨?_, ?_, ?_, ?_⟩
  · intro r m p oi ro ja horg hname hoi hro hja
    simp [buildMemberships, horg, hname, hoi, hro, hja, require, List.lookup, Bind.bind, Except.bind, Except.map]
  · intro a m u i t husers hname hemail hid hassigned
    simp [buildAssignees, husers, hname, hemail, hid, hassigned, require, List.lookup, Bind.bind, Except.bind, Except.map]
  · intro tl m p lid hlabels hid hlid hname hcolor
    simp [buildLabels, hlabels, hid, hlid, hname, hcolor, List.lookup, Bind.bind,
      Except.bind, Except.map]
  · intro c m u i ci co ts husers hid hname hcid hcontent hcreated
    simp [buildComments, husers, hid, hname, hcid, hcontent, hcreated, require, List.lookup, Bind.bind, Except.bind, Except.map]

/-- Witness for C9 at concrete sparse payload rows. -/
theorem joined_payload_defaults_witness :
    (buildMemberships [⟨some 1, some "admin", some none, some ⟨some 1, none⟩⟩] IDMapper.init).map
        (fun x => x.1.map (fun e => e.lookup "org_name")) = .ok [some (.str "")]
    ∧ (buildAssignees [⟨some none, some ⟨some 2, none, none⟩⟩] IDMapper.init).map
        (fun x => x.1.map (fun e => (e.lookup "name", e.lookup "email")))
        = .ok [(some (.str ""), some (.str ""))]
    ∧ (buildLabels [⟨some (some ⟨some 3, none, none⟩)⟩] IDMapper.init).map
        (fun x => x.1.map (fun e => (e.lookup "name", e.lookup "color")))
        = .ok [(some (.str ""), some (.str "#000000"))]
    ∧ (buildComments [⟨some 4, some "hi", some none, some ⟨some 2, none, none⟩⟩] IDMapper.init).map
        (fun x => x.1.map (fun e => e.lookup "author_name")) = .ok [some (.str "")] :=
  ⟨joined_payload_defaults.1 _ IDMapper.init ⟨some 1, none⟩ 1 "admin" none rfl rfl rfl rfl rfl,
   joined_payload_defaults.2.1 _ IDMapper.init ⟨some 2, none, none⟩ 2 none rfl rfl rfl rfl rfl,
   joined_payload_defaults.2.2.1 _ IDMapper.init ⟨some 3, none, none⟩ 3 rfl rfl (by decide) rfl rfl,
   joined_payload_defaults.2.2.2 _ IDMapper.init ⟨some 2, none, none⟩ 2 4 "hi" none
     rfl rfl rfl rfl rfl rfl⟩

theorem buildAssignees_ok_users {rows : List AssigneeRow} {m : IDMapper}
    {x : List Doc × IDMapper} (h : buildAssignees rows m = .ok x) :
    ∀ a ∈ rows, (a.users.getD emptyUserPayload).id.isSome := by
  induction rows generalizing m x with
  | nil => intro a ha; cases ha
  | cons a rows ih =>
      rw [buildAssignees] at h
      simp only [bind_ok_simp, require_ok] at h
      obtain ⟨uid, huid, ⟨aa, haa, ⟨es, hes, h⟩⟩⟩ := h
      intro b hb
      rcases List.mem_cons.mp hb with hb | hb
      · subst hb
        simp [huid]
      · exact ih hes b hb

theorem buildComments_ok_users {rows : List CommentRow} {m : IDMapper}
    {x : List Doc × IDMapper} (h : buildComments rows m = .ok x) :
    ∀ c ∈ rows, (c.users.getD emptyUserPayload).id.isSome := by
  induction rows generalizing m x with
  | nil => intro c hc; cases hc
  | cons c rows ih =>
      rw [buildComments] at h
      simp only [bind_ok_simp, require_ok] at h
      obtain ⟨cid, hcid, ⟨uid, huid, ⟨content, hcontent, ⟨ca, hca, ⟨es, hes, h⟩⟩⟩⟩⟩ := h
      intro b hb
      rcases List.mem_cons.mp hb with hb | hb
      · subst hb
        simp [huid]
      · exact ih hes b hb

/-- C10: an assignment or comment whose joined `users` payload is missing or
lacks an `id` makes `transform_task` raise (`user_data['id']` is a required
access, unlike the defensive label skip), and under the precondition that
every such payload carries an id (and the rows' own required fields are
present) the assignee and comment loops always succeed, so that error branch
is unreachable. -/
theorem task_embedded_user_id_required :
    (∀ (task : SrcTask) (m : IDMapper) (ll : List (Int × SrcLabel)),
      (∃ a ∈ task.task_assignees.getD [], (a.users.getD emptyUserPayload).id = none) →
      ∃ e, transform_task task m ll = .error e)
    ∧ (∀ (task : SrcTask) (m : IDMapper) (ll : List (Int × SrcLabel)),
      (∃ c ∈ task.comments.getD [], (c.users.getD emptyUserPayload).id = none) →
      ∃ e, transform_task task m ll = .error e)
    ∧ (∀ (rows : List AssigneeRow) (m : IDMapper),
      (∀ a ∈ rows, (a.users.getD emptyUserPayload).id.isSome ∧ a.assigned_at.isSome) →
      ∃ ds m', buildAssignees rows m = .ok (ds, m'))
    ∧ (∀ (rows : List CommentRow) (m : IDMapper),
      (∀ c ∈ rows, (c.users.getD emptyUserPayload).id.isSome ∧ c.id.isSome
        ∧ c.content.isSome ∧ c.created_at.isSome) →
      ∃ ds m', buildComments rows m = .ok (ds, m')) := by
  refine ⟨?_, ?_, ?_, ?_⟩
  · intro task m ll hbad
    cases hres : transform_task task m ll with
    | error e => exact ⟨e, rfl⟩
    | ok r =>
        exfalso
        rw [transform_task] at hres
        simp only [bind_ok_simp, require_ok] at hres
        obtain ⟨tid, htid, am, ham, -⟩ := hres
        obtain ⟨a, hmem, hnone⟩ := hbad
        have hsome := buildAssignees_ok_users ham a hmem
        rw [hnone] at hsome
        exact Bool.false_ne_true hsome
  · intro task m ll hbad
    cases hres : transform_task task m ll with
    | error e => exact ⟨e, rfl⟩
    | ok r =>
        exfalso
        rw [transform_task] at hres
        simp only [bind_ok_simp, require_ok] at hres
        obtain ⟨tid, htid, am, ham, lm, hlm, cm, hcm, -⟩ := hres
        obtain ⟨c, hmem, hnone⟩ := hbad
        have hsome := buildComments_ok_users hcm c hmem
        rw [hnone] at hsome
        exact Bool.false_ne_true hsome
  · intro rows
    induction rows with
    | nil => intro m _; exact ⟨[], m, rfl⟩
    | cons a rows ih =>
        intro m hall
        obtain ⟨huid, hts⟩ := hall a (List.mem_cons_self a rows)
        obtain ⟨uid, huid⟩ := Option.isSome_iff_exists.mp huid
        obtain ⟨ts, hts⟩ := Option.isSome_iff_exists.mp hts
        obtain ⟨ds, m₂, hrec⟩ := ih ((m.generate_user_id uid).2)
          (fun b hb => hall b (List.mem_cons_of_mem a hb))
        rw [buildAssignees]
        simp only [huid, hts, require, Bind.bind, Except.bind, hrec]
        exact ⟨_, _, rfl⟩
  · intro rows
    induction rows with
    | nil => intro m _; exact ⟨[], m, rfl⟩
    | cons c rows ih =>
        intro m hall
        obtain ⟨huid, hcid, hcontent, hca⟩ := hall c (List.mem_cons_self c rows)
        obtain ⟨uid, huid⟩ := Option.isSome_iff_exists.mp huid
        obtain ⟨cid, hcid⟩ := Option.isSome_iff_exists.mp hcid
        obtain ⟨co, hcontent⟩ := Option.isSome_iff_exists.mp hcontent
        obtain ⟨ca, hca⟩ := Option.isSome_iff_exists.mp hca
        obtain ⟨ds, m₂, hrec⟩ := ih (((m.generate_comment_id cid).2.generate_user_id uid).2)
          (fun b hb => hall b (List.mem_cons_of_mem c hb))
        rw [buildComments]
        simp only [huid, hcid, hcontent, hca, require, Bind.bind, Except.bind, hrec]
        exact ⟨_, _, rfl⟩

/-- A task whose single assignment has no joined `users` payload. -/
def taskNoAssigneeUser : SrcTask :=
  ⟨some 5, some 1, some "t", none, some "todo", some "low", none,
   some (some "2024-01-01T00:00:00Z"), some (some "2024-01-01T00:00:00Z"),
   some [⟨some none, none⟩], some [], some []⟩

/-- A task whose single comment has a joined `users` payload without an id. -/
def taskNoCommentUser : SrcTask :=
  ⟨some 6, some 1, some "t", none, some "todo", some "low", none,
   some (some "2024-01-01T00:00:00Z"), some (some "2024-01-01T00:00:00Z"),
   some [], some [], some [⟨some 9, some "x", some none, some ⟨none, none, none⟩⟩]⟩

/-- Witness for C10 at concrete inputs: missing user payloads make
`transform_task` fail, and well-formed rows make the loops succeed. -/
theorem task_embedded_user_id_required_witness :
    (∃ e, transform_task taskNoAssigneeUser IDMapper.init [] = .error e)
    ∧ (∃ e, transform_task taskNoCommentUser IDMapper.init [] = .error e)
    ∧ (∃ ds m', buildAssignees [⟨some none, some ⟨some 2, none, none⟩⟩] IDMapper.init
        = .ok (ds, m'))
    ∧ (∃ ds m', buildComments [⟨some 4, some "hi", some none, some ⟨some 2, none, none⟩⟩]
        IDMapper.init = .ok (ds, m')) :=
  ⟨task_embedded_user_id_required.1 taskNoAssigneeUser IDMapper.init []
     ⟨⟨some none, none⟩, by decide, rfl⟩,
   task_embedded_user_id_required.2.1 taskNoCommentUser IDMapper.init []
     ⟨⟨some 9, some "x", some none, some ⟨none, none, none⟩⟩, by decide, rfl⟩,
   task_embedded_user_id_required.2.2.1 _ IDMapper.init (by decide),
   task_embedded_user_id_required.2.2.2 _ IDMapper.init (by decide)⟩

theorem transform_user_email_none {u : SrcUser} (hemail : u.email = none) (m : IDMapper) :
    ∃ e, transform_user u m = .error e := by
  cases hres : transform_user u m with
  | error e => exact ⟨e, rfl⟩
  | ok r =>
      exfalso
      rw [transform_user] at hres
      simp only [bind_ok_simp, require_ok] at hres
      obtain ⟨uid, huid, pr, hpr, em, hem, -⟩ := hres
      rw [hemail] at hem
      cases hem

theorem transform_users_error {users : List SrcUser}
    (h : ∃ u ∈ users, u.email = none) (m : IDMapper) :
    ∃ e, transform_users users m = .error e := by
  induction users generalizing m with
  | nil => obtain ⟨u, hu, -⟩ := h; cases hu
  | cons u0 rest ih =>
      cases hres0 : transform_user u0 m with
      | error e =>
          exact ⟨e, by rw [transform_users]; simp [hres0, Bind.bind, Except.bind]⟩
      | ok pr =>
          obtain ⟨d0, m1⟩ := pr
          obtain ⟨u, hu, hmail⟩ := h
          rcases List.mem_cons.mp hu with hu | hu
          · subst hu
            obtain ⟨e3, he3⟩ := transform_user_email_none hmail m
            rw [he3] at hres0
            cases hres0
          · obtain ⟨e, he⟩ := ih ⟨u, hu, hmail⟩ m1
            exact ⟨e, by rw [transform_users]; simp [hres0, Bind.bind, Except.bind, he]⟩

/-- C6: if any user record lacks the required `email` field, the whole
`transform_all_data` pass fails with an exception and returns no (partial)
transformed output — there is no per-record partial-success mode. -/
theorem missing_required_field_aborts_all (src : SrcData)
    (h : ∃ u ∈ src.users, u.email = none) :
    ∃ e, transform_all_data src = .error e := by
  cases hll : buildLabelsLookup src.labels with
  | error e =>
      exact ⟨e, by rw [transform_all_data]; simp [hll, Bind.bind, Except.bind]⟩
  | ok ll =>
      cases horg : transform_organizations src.organizations IDMapper.init with
      | error e =>
          exact ⟨e, by rw [transform_all_data]; simp [hll, horg, Bind.bind, Except.bind]⟩
      | ok orgpair =>
          obtain ⟨odocs, m1⟩ := orgpair
          obtain ⟨e, he⟩ := transform_users_error h m1
          exact ⟨e, by rw [transform_all_data]; simp [hll, horg, he, Bind.bind, Except.bind]⟩

/-- A dataset whose only user record has no `email`. -/
def srcMissingEmail : SrcData :=
  ⟨[], [⟨some 1, none, some "Ann", some (some "2024-01-01T00:00:00Z"), some []⟩], [], [], []⟩

/-- Witness for C6 at a concrete dataset. -/
theorem missing_required_field_aborts_all_witness :
    ∃ e, transform_all_data srcMissingEmail = .error e :=
  missing_required_field_aborts_all srcMissingEmail
    ⟨⟨some 1, none, some "Ann", some (some "2024-01-01T00:00:00Z"), some []⟩, by decide, rfl⟩

/-- Extract the document payload of a value. -/
def valDoc : Value → Option Doc
  | .doc kv => some kv
  | _ => none

/-- The preserved source id (`pg_id`) of a produced document. -/
def pgIdOf (d : Doc) : Option Int :=
  match d.lookup "pg_id" with
  | some (.int n) => some n
  | _ => none

/-- The embedded task documents of a produced project document. -/
def tasksOf (d : Doc) : List Doc :=
  match d.lookup "tasks" with
  | some (.arr vs) => vs.filterMap valDoc
  | _ => []

/-- The claim's "transformed subset of T": transform every task of an
already-filtered list in order, threading the mapper state. -/
def transformTaskList (tasks : List SrcTask) (m : IDMapper)
    (labels_lookup : List (Int × SrcLabel)) : Except PyErr (List Doc × IDMapper) :=
  match tasks with
  | [] => .ok ([], m)
  | t :: rest => do
      let (d, m) ← transform_task t m labels_lookup
      let (ds, m) ← transformTaskList rest m labels_lookup
      .ok (d :: ds, m)

theorem filterMap_valDoc_map (xs : List Doc) : (xs.map Value.doc).filterMap valDoc = xs := by
  induction xs with
  | nil => rfl
  | cons x xs ih => simp [valDoc, ih]

theorem filterMap_valDoc_comp (xs : List Doc) : xs.filterMap (valDoc ∘ Value.doc) = xs := by
  induction xs with
  | nil => rfl
  | cons x xs ih => simp [valDoc, Function.comp, ih]

/-- The filtering loop of `transform_project` is exactly `transformTaskList`
applied to the project-id filter of the task list. -/
theorem embedTasks_eq_filter (tasks : List SrcTask) (pid : Int) (m : IDMapper)
    (ll : List (Int × SrcLabel)) (htasks : ∀ t ∈ tasks, t.project_id.isSome) :
    embedTasks pid tasks m ll
      = transformTaskList (tasks.filter (fun t => t.project_id == some pid)) m ll := by
  induction tasks generalizing m with
  | nil => rfl
  | cons t rest ih =>
      obtain ⟨tpid, htpid⟩ :=
        Option.isSome_iff_exists.mp (htasks t (List.mem_cons_self t rest))
      have hrest : ∀ t ∈ rest, t.project_id.isSome :=
        fun b hb => htasks b (List.mem_cons_of_mem t hb)
      rw [embedTasks]
      simp only [List.filter_cons, htpid, require, Bind.bind, Except.bind]
      by_cases hp : tpid = pid
      · subst hp
        have iha : ∀ m', embedTasks tpid rest m' ll
            = transformTaskList (rest.filter (fun t => t.project_id == some tpid)) m' ll :=
          fun m' => ih m' hrest
        simp [transformTaskList, Bind.bind, Except.bind, iha]
      · have hne : ((some tpid : Option Int) == some pid) = false := by simp [hp]
        simp [hne, hp]
        exact ih m hrest

theorem transform_task_ok_pgid {t : SrcTask} {m : IDMapper} {ll : List (Int × SrcLabel)}
    {d : Doc} {m' : IDMapper} (h : transform_task t m ll = .ok (d, m')) :
    ∃ tid, t.id = some tid ∧ pgIdOf d = some tid := by
  rw [transform_task] at h
  simp only [bind_ok_simp, require_ok] at h
  obtain ⟨tid, htid, am, ham, lm, hlm, cm, hcm, sc, hsc, title, htitle, st, hst,
    pr, hpr, ca, hca, ua, hua, h⟩ := h
  simp only [Except.ok.injEq, Prod.mk.injEq] at h
  obtain ⟨h1, -⟩ := h
  refine ⟨tid, htid, ?_⟩
  rw [← h1]
  by_cases hd : t.description.isNone
  · rw [if_pos hd]
    simp [pgIdOf, List.filter, List.lookup]
  · rw [if_neg hd]
    simp [pgIdOf, List.lookup]

theorem transformTaskList_count {L : List SrcTask} {m : IDMapper} {ll : List (Int × SrcLabel)}
    {ds : List Doc} {m₂ : IDMapper} (h : transformTaskList L m ll = .ok (ds, m₂)) (n : Int) :
    ds.countP (fun d => pgIdOf d == some n) = L.countP (fun t => t.id == some n) := by
  induction L generalizing m ds m₂ with
  | nil =>
      rw [transformTaskList] at h
      simp only [Except.ok.injEq, Prod.mk.injEq] at h
      rw [← h.1]
      rfl
  | cons t rest ih =>
      rw [transformTaskList] at h
      simp only [bind_ok_simp] at h
      obtain ⟨dm, hdm, es, hes, h⟩ := h
      simp only [Except.ok.injEq, Prod.mk.injEq] at h
      obtain ⟨h1, -⟩ := h
      obtain ⟨tid, htid, hpg⟩ := transform_task_ok_pgid hdm
      rw [← h1, List.countP_cons, List.countP_cons, ih hes, hpg, htid]

theorem transform_project_ok_struct {p : SrcProject} {tasks : List SrcTask} {m : IDMapper}
    {ll : List (Int × SrcLabel)} {doc : Doc} {m' : IDMapper}
    (h : transform_project p tasks m ll = .ok (doc, m')) :
    ∃ pid tds m₂, p.id = some pid
      ∧ embedTasks pid tasks ((m.generate_project_id pid).2) ll = .ok (tds, m₂)
      ∧ tasksOf doc = tds := by
  rw [transform_project] at h
  simp only [bind_ok_simp, require_ok] at h
  obtain ⟨pid, hpid, tds, htds, oi, hoi, nm, hnm, st, hst, ca, hca, h⟩ := h
  simp only [Except.ok.injEq, Prod.mk.injEq] at h
  obtain ⟨h1, -⟩ := h
  refine ⟨pid, tds.1, tds.2, hpid, htds, ?_⟩
  rw [← h1]
  by_cases hd : p.description.isNone
  · rw [if_pos hd]
    simp [tasksOf, List.filter, List.lookup, filterMap_valDoc_map, filterMap_valDoc_comp]
  · rw [if_neg hd]
    simp [tasksOf, List.lookup, filterMap_valDoc_map, filterMap_valDoc_comp]

theorem transform_projects_sum {projects : List SrcProject} {tasks : List SrcTask}
    {m : IDMapper} {ll : List (Int × SrcLabel)} {docs : List Doc} {m₂ : IDMapper}
    (h : transform_projects projects tasks m ll = .ok (docs, m₂))
    (htasks : ∀ t ∈ tasks, t.project_id.isSome) (n : Int) :
    (docs.map (fun d => (tasksOf d).countP (fun td => pgIdOf td == some n))).sum
      = (projects.map (fun p => tasks.countP
          (fun t => t.project_id == p.id && t.id == some n))).sum := by
  induction projects generalizing m docs m₂ with
  | nil =>
      rw [transform_projects] at h
      simp only [Except.ok.injEq, Prod.mk.injEq] at h
      rw [← h.1]
      rfl
  | cons p rest ih =>
      rw [transform_projects] at h
      simp only [bind_ok_simp] at h
      obtain ⟨dm, hdm, dsr, hdsr, h⟩ := h
      simp only [Except.ok.injEq, Prod.mk.injEq] at h
      obtain ⟨h1, -⟩ := h
      rw [← h1]
      simp only [List.map_cons, List.sum_cons]
      rw [ih hdsr]
      congr 1
      obtain ⟨pid, tds, m₃, hpid, hembed, htds⟩ := transform_project_ok_struct hdm
      rw [htds]
      rw [embedTasks_eq_filter tasks pid _ ll htasks] at hembed
      rw [transformTaskList_count hembed n, List.countP_filter, hpid]
      have hfun : (fun t : SrcTask => (t.id == some n) && (t.project_id == some pid))
          = (fun t : SrcTask => (t.project_id == some pid) && (t.id == some n)) := by
        funext t
        exact Bool.and_comm _ _
      rw [hfun]

theorem sum_map_add_nat {α : Type} (l : List α) (f g : α → Nat) :
    (l.map (fun x => f x + g x)).sum = (l.map f).sum + (l.map g).sum := by
  induction l with
  | nil => rfl
  | cons x xs ih =>
      simp only [List.map_cons, List.sum_cons, ih]
      omega

theorem sum_map_indicator (pids : List (Option Int)) (x : Option Int) (b : Bool) :
    (pids.map (fun pid => if (x == pid && b) then 1 else 0)).sum
      = if b then pids.countP (fun q => x == q) else 0 := by
  induction pids with
  | nil => cases b <;> rfl
  | cons q qs ih =>
      simp only [List.map_cons, List.sum_cons, ih, List.countP_cons]
      by_cases hq : x = q
      · subst hq
        cases b <;> simp [Nat.add_comm]
      · have h1 : (x == q) = false := beq_eq_false_iff_ne.mpr hq
        cases b <;> simp [h1]

theorem countP_beq_eq_one_of_mem {pids : List (Option Int)} {x : Option Int}
    (hnodup : pids.Nodup) (hmem : x ∈ pids) : pids.countP (fun q => x == q) = 1 := by
  induction pids with
  | nil => cases hmem
  | cons q qs ih =>
      obtain ⟨hq, hqs⟩ := List.nodup_cons.mp hnodup
      rw [List.countP_cons]
      by_cases hxq : x = q
      · subst hxq
        have hzero : qs.countP (fun q => x == q) = 0 :=
          List.countP_eq_zero.mpr (fun a ha hax => hq (by rwa [← eq_of_beq hax] at ha))
        simp [hzero]
      · have hx : x ∈ qs := by
          rcases List.mem_cons.mp hmem with h | h
          · exact absurd h hxq
          · exact h
        have h1 : (x == q) = false := beq_eq_false_iff_ne.mpr hxq
        simp [h1, ih hqs hx]

theorem sum_count_partition (pids : List (Option Int)) (tasks : List SrcTask) (n : Int)
    (hnodup : pids.Nodup) (hcov : ∀ t ∈ tasks, t.project_id ∈ pids) :
    (pids.map (fun pid => tasks.countP (fun t => t.project_id == pid && t.id == some n))).sum
      = tasks.countP (fun t => t.id == some n) := by
  induction tasks with
  | nil => simp
  | cons t ts ih =>
      have hcov' : ∀ u ∈ ts, u.project_id ∈ pids :=
        fun u hu => hcov u (List.mem_cons_of_mem t hu)
      have hmem : t.project_id ∈ pids := hcov t (List.mem_cons_self t ts)
      simp only [List.countP_cons]
      rw [sum_map_add_nat pids
        (fun pid => ts.countP (fun u => u.project_id == pid && u.id == some n))
        (fun pid => if (t.project_id == pid && t.id == some n) then 1 else 0)]
      rw [ih hcov', sum_map_indicator pids t.project_id (t.id == some n)]
      rw [countP_beq_eq_one_of_mem hnodup hmem]

/-- C1: the task array a project document embeds is exactly the transformed
subset of the full task list whose source `project_id` equals the project's
source id (threaded through the same mapper), and across one
`transform_projects` run over projects with distinct ids covering every
task's `project_id`, each source task id is embedded in project documents
exactly as many times as it occurs in the task list — no task duplicated
across projects and none dropped. -/
theorem task_partitioning :
    (∀ (p : SrcProject) (tasks : List SrcTask) (m : IDMapper) (ll : List (Int × SrcLabel))
        (doc : Doc) (m' : IDMapper),
      (∀ t ∈ tasks, t.project_id.isSome) →
      transform_project p tasks m ll = .ok (doc, m') →
      ∃ pid tds m₂, p.id = some pid
        ∧ transformTaskList (tasks.filter (fun t => t.project_id == some pid))
            ((m.generate_project_id pid).2) ll = .ok (tds, m₂)
        ∧ tasksOf doc = tds)
    ∧ (∀ (projects : List SrcProject) (tasks : List SrcTask) (m : IDMapper)
        (ll : List (Int × SrcLabel)) (docs : List Doc) (m₂ : IDMapper) (n : Int),
      transform_projects projects tasks m ll = .ok (docs, m₂) →
      (projects.map (fun p => p.id)).Nodup →
      (∀ t ∈ tasks, t.project_id ∈ projects.map (fun p => p.id)) →
      (∀ t ∈ tasks, t.project_id.isSome) →
      (docs.map (fun d => (tasksOf d).countP (fun td => pgIdOf td == some n))).sum
        = tasks.countP (fun t => t.id == some n)) := by
  constructor
  · intro p tasks m ll doc m' htasks hok
    obtain ⟨pid, tds, m₃, hpid, hembed, htds⟩ := transform_project_ok_struct hok
    rw [embedTasks_eq_filter tasks pid _ ll htasks] at hembed
    exact ⟨pid, tds, m₃, hpid, hembed, htds⟩
  · intro projects tasks m ll docs m₂ n hok hnodup hcov htasks
    rw [transform_projects_sum hok htasks n]
    have hpart := sum_count_partition (projects.map (fun p => p.id)) tasks n hnodup hcov
    rw [List.map_map] at hpart
    simpa [Function.comp] using hpart

def mkPlainTask (i pid : Int) : SrcTask :=
  ⟨some i, some pid, some "t", none, some "todo", some "low", none,
   some (some "2024-01-01T00:00:00Z"), some (some "2024-01-01T00:00:00Z"),
   some [], some [], some []⟩

def projA : SrcProject :=
  ⟨some 1, some 1, some "A", some "d", some "active", some (some "2024-01-01T00:00:00Z"),
   some ⟨some 1, some "Acme"⟩⟩

def projB : SrcProject :=
  ⟨some 2, some 1, some "B", some "d", some "active", some (some "2024-01-01T00:00:00Z"),
   some ⟨some 1, some "Acme"⟩⟩

def tasksABC : List SrcTask := [mkPlainTask 10 1, mkPlainTask 11 2, mkPlainTask 12 1]

def c1ProjRes : Except PyErr (Doc × IDMapper) := transform_project projA tasksABC IDMapper.init []

def c1Apdoc : Doc := match c1ProjRes with | .ok (d, _) => d | .error _ => []

def c1Apmap : IDMapper := match c1ProjRes with | .ok (_, m) => m | .error _ => IDMapper.init

def c1RunRes : Except PyErr (List Doc × IDMapper) :=
  transform_projects [projA, projB] tasksABC IDMapper.init []

def c1docs : List Doc := match c1RunRes with | .ok (ds, _) => ds | .error _ => []

def c1runmap : IDMapper := match c1RunRes with | .ok (_, m) => m | .error _ => IDMapper.init

/-- Witness for C1 at a concrete two-project, three-task dataset. -/
theorem task_partitioning_witness :
    (∃ pid tds m₂, projA.id = some pid
      ∧ transformTaskList (tasksABC.filter (fun t => t.project_id == some pid))
          ((IDMapper.init.generate_project_id pid).2) [] = .ok (tds, m₂)
      ∧ tasksOf c1Apdoc = tds)
    ∧ (c1docs.map (fun d => (tasksOf d).countP (fun td => pgIdOf td == some 10))).sum
        = tasksABC.countP (fun t => t.id == some 10) :=
  ⟨task_partitioning.1 projA tasksABC IDMapper.init [] c1Apdoc c1Apmap (by decide) rfl,
   task_partitioning.2 [projA, projB] tasksABC IDMapper.init [] c1docs c1runmap 10
     rfl (by decide) (by decide) (by decide)⟩
